import Mathlib

/-!
Shallow embedding of `RAGApp.py` (LocalRAG): the model-discovery parser,
the supported-file scanner, and the mode-aware query dispatcher / upload
coordinator state machine, together with theorems settling the spec claims.

External collaborators (the `praisonaiagents` Agent constructor and its
`start` method, tkinter message boxes) are opaque: their outcomes are
passed as explicit parameters (`Except` values), and user-visible actions
are recorded as an effect list.
-/

namespace LocalRAG

/-! ## Python string primitives, on `List Char` -/

/-- Python `str.isspace` for the ASCII whitespace characters relevant to
`str.strip()` / `str.split(None)`. -/
def pyIsSpace (c : Char) : Bool :=
  c == ' ' || c == '\t' || c == '\n' || c == '\r' || c == '\x0b' || c == '\x0c'

/-- Python `str.strip()`: drop leading and trailing whitespace. -/
def stripL (l : List Char) : List Char :=
  ((l.dropWhile pyIsSpace).reverse.dropWhile pyIsSpace).reverse

/-- Python truthiness of `line.strip()`: a line is blank when every
character is whitespace. -/
def isBlankL (l : List Char) : Bool := l.all pyIsSpace

/-- First whitespace-delimited token of a line: `line.split(None, 3)[0]`
(empty when the line is all whitespace, in which case Python's `parts`
list is empty). -/
def firstTokenL (l : List Char) : List Char :=
  (l.dropWhile pyIsSpace).takeWhile (fun c => !(pyIsSpace c))

/-- Python `s.split("\n")`: split on every newline, keeping empty pieces. -/
def splitNl : List Char → List (List Char)
  | [] => [[]]
  | c :: rest =>
    if c = '\n' then [] :: splitNl rest
    else
      match splitNl rest with
      | [] => [[c]]
      | g :: gs => (c :: g) :: gs

/-- Does `l` start with `p`? (Python `str.startswith`.) -/
def leadsWith : List Char → List Char → Bool
  | [], _ => true
  | _ :: _, [] => false
  | p :: ps, c :: l => p == c && leadsWith ps l

/-- Does `l` end with `suf`? (Python `str.endswith`.) -/
def tailsWith (suf l : List Char) : Bool := leadsWith suf.reverse l.reverse

/-- Python `str.lower()` on the ASCII range. -/
def lowerL (l : List Char) : List Char := l.map Char.toLower

/-- Python `str.strip()` lifted to `String`. -/
def pyStrip (s : String) : String := ⟨stripL s.data⟩

/-! ## Model Discovery: `get_ollama_models` (RAGApp.py lines 106-129) -/

/-- The lines of the stripped listing output: `output.strip().split("\n")`. -/
def linesOf (output : String) : List String :=
  (splitNl (stripL output.data)).map (fun l => String.mk l)

/-- The data rows: drop the first line when it starts with `"NAME"`
(`if lines and lines[0].startswith("NAME"): lines = lines[1:]`; the split
never yields an empty list, so the emptiness test is only the header check). -/
def dataRows (output : String) : List String :=
  match linesOf output with
  | [] => []
  | l0 :: rest => if leadsWith ("NAME".data) l0.data then rest else l0 :: rest

/-- One iteration of the parsing loop: skip blank lines
(`if not line.strip(): continue`), then take the first token of
`line.split(None, 3)` when that list is non-empty (`if parts:`). -/
def parseModelLine (line : String) : Option String :=
  if isBlankL line.data then none
  else
    let tok := firstTokenL line.data
    if tok.isEmpty then none else some ⟨tok⟩

/-- Function `get_ollama_models()`: the listing command's outcome is either an
exception (message) or its stdout text; on exception the fixed fallback
list is returned. -/
def get_ollama_models (outcome : Except String String) : List String :=
  match outcome with
  | .error _ => ["mistral:latest"]
  | .ok output => (dataRows output).filterMap parseModelLine

/-! ## File Scanner: `scan_supported_files` (RAGApp.py lines 300-313) -/

/-- A directory tree: the files directly inside, and the named
subdirectories, in the order `os.walk` visits them. -/
inductive FSTree where
  | node (files : List String) (subdirs : List (String × FSTree))
deriving Repr

/-- Source constant `supported_extensions = ['.pdf', '.md', '.txt']`. -/
def supported_extensions : List String := [".pdf", ".md", ".txt"]

/-- Predicate `any(filename.lower().endswith(ext) for ext in supported_extensions)`. -/
def hasSupportedExt (filename : String) : Bool :=
  supported_extensions.any (fun ext => tailsWith ext.data (lowerL filename.data))

/-- Python `os.path.join(root, name)` on POSIX. -/
def joinPath (root name : String) : String := root ++ "/" ++ name

mutual

/-- The `os.walk` loop of `scan_supported_files`: files of the current
directory are filtered and joined to the root, then subdirectories are
walked top-down in order. -/
def scanTree (root : String) : FSTree → List String
  | .node files subdirs =>
    (files.filter hasSupportedExt).map (fun f => joinPath root f)
      ++ scanSubdirs root subdirs

/-- Walk each subdirectory of `root` in order. -/
def scanSubdirs (root : String) : List (String × FSTree) → List String
  | [] => []
  | (name, t) :: rest => scanTree (joinPath root name) t ++ scanSubdirs root rest

end

/-- Method `scan_supported_files(directory)`: `directory` is the selected path and
the tree models the filesystem contents beneath it. -/
def scan_supported_files (directory : String) (t : FSTree) : List String :=
  scanTree directory t

mutual

/-- Every file under the tree, as (joined path, bare filename) pairs, in
walk order. -/
def allFilesTree (root : String) : FSTree → List (String × String)
  | .node files subdirs =>
    files.map (fun f => (joinPath root f, f)) ++ allFilesSubdirs root subdirs

/-- Every file under each subdirectory, in walk order. -/
def allFilesSubdirs (root : String) : List (String × FSTree) → List (String × String)
  | [] => []
  | (name, t) :: rest => allFilesTree (joinPath root name) t ++ allFilesSubdirs root rest

end

/-! ## Application state machine (RAGApp.py, class RAGApplication)

The GUI widgets and the external agent framework are opaque; the state
record holds exactly the mutable fields of `RAGApplication`, and every
user-visible or external action is recorded as an `Effect`.  Outcomes of
the opaque `Agent(...)` constructor and `agent.start(query)` calls are
explicit `Except` parameters. -/

/-- The chat agent: its LiteLLM model string and the `_model` attribute
that `_handle_chat_query` attaches after a successful build (absent right
after construction, which models `getattr(..., '_model', None)`). -/
structure ChatAgentSt where
  llm : String
  modelAttr : Option String
deriving DecidableEq, Repr

/-- The knowledge agent built by `_upload_document_thread`: its LiteLLM
model string and the knowledge file list it was built over. -/
structure KnowledgeAgent where
  llm : String
  knowledge : List String
deriving DecidableEq, Repr

/-- The mode radio-button value. -/
inductive Mode where
  | chat
  | rag
deriving DecidableEq, Repr

/-- The mutable state of `RAGApplication`. -/
structure AppState where
  selected_directory : String
  selected_files : List String
  upload_in_progress : Bool
  agent : Option KnowledgeAgent
  chat_agent : Option ChatAgentSt
  ollama_models : List String
  model_var : String
  mode : Mode
deriving DecidableEq, Repr

/-- A Python value returned by `agent.start(query)`: a string, `None`, or
any other object (carrying its `str(...)` rendering). -/
inductive PyValue where
  | str (s : String)
  | pynone
  | other (reprStr : String)
deriving DecidableEq, Repr

/-- User-visible and external actions taken by the handlers. -/
inductive Effect where
  | showInfo (title msg : String)
  | showError (title msg : String)
  | startUploadThread (model : String)
  | constructKnowledgeAgent (llm : String)
  | constructChatAgent (llm : String)
  | invokeKnowledgeAgent (a : KnowledgeAgent) (query : String)
  | invokeChatAgent (a : ChatAgentSt) (query : String)
  | display (text : String)
deriving DecidableEq, Repr

/-- Normalization `f"ollama/{m}" if not m.startswith("ollama/") else m`. -/
def normalizeModel (m : String) : String :=
  if leadsWith ("ollama/".data) m.data then m else "ollama/" ++ m

/-- Method `upload_document` (lines 315-340): reject when an upload is in flight,
validate directory / scanned files / model membership, then set the flag
and hand off to the background thread. -/
def upload_document (s : AppState) : AppState × List Effect :=
  if s.upload_in_progress then
    (s, [Effect.showInfo "Info" "Upload is already in progress."])
  else if s.selected_directory = "" then
    (s, [Effect.showError "Error" "Please select a directory first."])
  else if s.selected_files = [] then
    (s, [Effect.showError "Error"
      "No supported files (PDF, MD, TXT) found in the selected directory."])
  else if s.ollama_models.contains s.model_var = false then
    (s, [Effect.showError "Error"
      ("The model \x27" ++ s.model_var ++ "\x27 is not available in Ollama.")])
  else
    ({ s with upload_in_progress := true },
     [Effect.startUploadThread s.model_var])

/-- Method `_upload_document_thread` (lines 342-374): the `Agent(...)` call either
succeeds (the new knowledge agent is stored and the file count reported) or
raises (the message is surfaced and `self.agent` set to `None`); the
`finally` block clears the flag on every path. -/
def _upload_document_thread (s : AppState) (selected_model : String)
    (outcome : Except String Unit) : AppState × List Effect :=
  match outcome with
  | .ok _ =>
    ({ s with
        agent := some { llm := normalizeModel selected_model
                        knowledge := s.selected_files }
        upload_in_progress := false },
     [Effect.constructKnowledgeAgent (normalizeModel selected_model),
      Effect.showInfo "Success"
        (toString s.selected_files.length
          ++ " documents successfully uploaded and indexed.")])
  | .error e =>
    ({ s with agent := none, upload_in_progress := false },
     [Effect.constructKnowledgeAgent (normalizeModel selected_model),
      Effect.showError "Error" ("An error occurred during upload:\n" ++ e)])

/-- Method `create_chat_agent` (lines 376-399): the `Agent(...)` call either
succeeds (a fresh chat agent, `_model` not yet set, `True` returned) or
raises (error surfaced, `self.chat_agent = None`, `False` returned). -/
def create_chat_agent (s : AppState) (selected_model : String)
    (outcome : Except String Unit) : AppState × Bool × List Effect :=
  match outcome with
  | .ok _ =>
    ({ s with chat_agent := some { llm := normalizeModel selected_model
                                   modelAttr := none } },
     true,
     [Effect.constructChatAgent (normalizeModel selected_model)])
  | .error e =>
    ({ s with chat_agent := none },
     false,
     [Effect.constructChatAgent (normalizeModel selected_model),
      Effect.showError "Error" ("Failed to create chat agent:\n" ++ e)])

/-- The result-rendering step shared by both handlers (lines 438-445 and
469-476): a string is shown as is, `None` becomes the fixed placeholder,
anything else is shown via `str(result)`. -/
def renderResult : PyValue → String
  | .str s => s
  | .pynone => "No response from the model."
  | .other r => r

/-- Staleness test `if not self.chat_agent or getattr(self.chat_agent, '_model', None)
!= selected_model` (line 429). -/
def chatCacheStale (s : AppState) : Bool :=
  match s.chat_agent with
  | none => true
  | some ca => ca.modelAttr != some s.model_var

/-- The `try: result = agent.start(query) ...` block of `_handle_chat_query`
(lines 435-448); the state is unchanged on both paths. -/
def runChatStart (s : AppState) (ca : ChatAgentSt) (query : String)
    (startOutcome : Except String PyValue) : AppState × List Effect :=
  match startOutcome with
  | .ok v =>
    (s, [Effect.invokeChatAgent ca query, Effect.display (renderResult v)])
  | .error e =>
    (s, [Effect.invokeChatAgent ca query,
      Effect.showError "Error" ("An error occurred in Chat Mode:\n" ++ e)])

/-- Method `_handle_chat_query` (lines 419-448): membership check, lazy (re)build
of the chat agent keyed by `_model`, then the `start` call. -/
def _handle_chat_query (s : AppState) (query : String)
    (ctorOutcome : Except String Unit) (startOutcome : Except String PyValue) :
    AppState × List Effect :=
  if s.ollama_models.contains s.model_var = false then
    (s, [Effect.showError "Error"
      ("The model \x27" ++ s.model_var ++ "\x27 is not available in Ollama.")])
  else if chatCacheStale s then
    let r := create_chat_agent s s.model_var ctorOutcome
    if r.2.1 then
      match r.1.chat_agent with
      | some ca0 =>
        -- `self.chat_agent._model = selected_model`
        let ca : ChatAgentSt := { ca0 with modelAttr := some s.model_var }
        let s2 := { r.1 with chat_agent := some ca }
        let rs := runChatStart s2 ca query startOutcome
        (rs.1, r.2.2 ++ rs.2)
      | none => (r.1, r.2.2)
    else
      (r.1, r.2.2)
  else
    match s.chat_agent with
    | some ca => runChatStart s ca query startOutcome
    | none => (s, [])

/-- Method `_handle_rag_query` (lines 450-479): busy check, then agent presence,
then the `start` call with rendering and error surfacing. -/
def _handle_rag_query (s : AppState) (query : String)
    (startOutcome : Except String PyValue) : AppState × List Effect :=
  if s.upload_in_progress then
    (s, [Effect.showInfo "Info"
      "System is busy performing the RAG operation. Please wait."])
  else
    match s.agent with
    | none =>
      (s, [Effect.showError "Error"
        "No documents have been uploaded yet. Please upload first."])
    | some ag =>
      match startOutcome with
      | .ok v =>
        (s, [Effect.invokeKnowledgeAgent ag query,
          Effect.display (renderResult v)])
      | .error e =>
        (s, [Effect.invokeKnowledgeAgent ag query,
          Effect.showError "Error" ("An error occurred in RAG Mode:\n" ++ e)])

/-- Method `run_query` (lines 401-417): strip the query, reject empties, dispatch
on the mode. -/
def run_query (s : AppState) (rawQuery : String)
    (ctorOutcome : Except String Unit) (startOutcome : Except String PyValue) :
    AppState × List Effect :=
  let query := pyStrip rawQuery
  if query = "" then
    (s, [Effect.showError "Error" "Please enter a query."])
  else
    match s.mode with
    | .chat => _handle_chat_query s query ctorOutcome startOutcome
    | .rag => _handle_rag_query s query startOutcome

/-- Does the effect list invoke any agent's `start` method? -/
def invokesAnyAgent (es : List Effect) : Bool :=
  es.any (fun e =>
    match e with
    | .invokeKnowledgeAgent _ _ => true
    | .invokeChatAgent _ _ => true
    | _ => false)

/-- Does the effect list construct a chat agent? -/
def constructsChat (es : List Effect) : Bool :=
  es.any (fun e =>
    match e with
    | .constructChatAgent _ => true
    | _ => false)

/-- Does the effect list start a background upload thread? -/
def startsUpload (es : List Effect) : Bool :=
  es.any (fun e =>
    match e with
    | .startUploadThread _ => true
    | _ => false)

/-- A concrete state used to instantiate theorems with hypotheses. -/
def baseState : AppState :=
  { selected_directory := "docs"
    selected_files := ["docs/a.txt"]
    upload_in_progress := false
    agent := none
    chat_agent := none
    ollama_models := ["mistral:latest"]
    model_var := "mistral:latest"
    mode := Mode.rag }

/-- A concrete knowledge agent used to instantiate theorems. -/
def sampleAgent : KnowledgeAgent :=
  { llm := "ollama/mistral:latest", knowledge := ["docs/a.txt"] }

/-! ### Parsing lemmas -/

/-- A line that is not all-whitespace has a non-empty first token. -/
theorem firstTokenL_ne_nil (l : List Char) (h : isBlankL l = false) : firstTokenL l ≠ [] := by
  induction l with
  | nil => simp [isBlankL] at h
  | cons c t ih =>
    unfold firstTokenL at ih ⊢
    cases hc : pyIsSpace c with
    | true =>
      have ht : isBlankL t = false := by
        simpa [isBlankL, hc] using h
      simpa [List.dropWhile_cons, hc] using ih ht
    | false =>
      simp [List.dropWhile_cons, hc, List.takeWhile_cons]

/-- On a non-blank line, the parsing loop produces exactly the first
whitespace-delimited token. -/
theorem parseModelLine_of_not_blank (r : String) (h : isBlankL r.data = false) :
    parseModelLine r = some ⟨firstTokenL r.data⟩ := by
  cases htok : firstTokenL r.data with
  | nil => exact absurd htok (firstTokenL_ne_nil r.data h)
  | cons x xs => simp [parseModelLine, h, htok]

/-- Lemma: `filterMap` degenerates to `map` when `f` succeeds everywhere. -/
theorem filterMap_eq_map_of_forall_some {α β : Type} (f : α → Option β) (g : α → β)
    (l : List α) (h : ∀ a ∈ l, f a = some (g a)) : l.filterMap f = l.map g := by
  induction l with
  | nil => rfl
  | cons a t ih =>
    rw [List.filterMap_cons, h a (List.mem_cons_self a t), List.map_cons,
      ih (fun x hx => h x (List.mem_cons_of_mem a hx))]

/-! ## Claim theorems -/

/-- Claim C1: while an upload is in flight (`upload_in_progress = true`),
`upload_document` rejects the request with the "in progress" notice, starts
no background task, and leaves the whole state — flag, agent references,
selected directory and file list — exactly as it was. -/
theorem upload_rejected_when_in_flight (s : AppState)
    (h : s.upload_in_progress = true) :
    upload_document s
        = (s, [Effect.showInfo "Info" "Upload is already in progress."])
      ∧ startsUpload (upload_document s).2 = false := by
  have he : upload_document s
      = (s, [Effect.showInfo "Info" "Upload is already in progress."]) := by
    unfold upload_document
    rw [if_pos h]
  exact ⟨he, by rw [he]; rfl⟩

/-- Witness for C1 at a concrete in-flight state. -/
theorem upload_rejected_when_in_flight_witness :
    ({ baseState with upload_in_progress := true } : AppState).upload_in_progress = true
      ∧ upload_document { baseState with upload_in_progress := true }
          = ({ baseState with upload_in_progress := true },
             [Effect.showInfo "Info" "Upload is already in progress."]) :=
  ⟨rfl, (upload_rejected_when_in_flight { baseState with upload_in_progress := true } rfl).1⟩

/-- Claim C2: whatever the agent-construction outcome, the background
upload task terminates with `upload_in_progress = false`. -/
theorem upload_thread_always_clears_flag (s : AppState) (m : String)
    (outcome : Except String Unit) :
    ((_upload_document_thread s m outcome).1).upload_in_progress = false := by
  cases outcome <;> rfl

/-- Claim C6: on an exception in the upload thread the agent reference ends
up `none` and the exception message is surfaced; on success the reported
count is the length of the selected file list. -/
theorem upload_thread_failure_clears_agent (s : AppState) (m e : String) :
    ((_upload_document_thread s m (.error e)).1).agent = none
      ∧ (_upload_document_thread s m (.error e)).2
          = [Effect.constructKnowledgeAgent (normalizeModel m),
             Effect.showError "Error" ("An error occurred during upload:\n" ++ e)]
      ∧ (_upload_document_thread s m (.ok ())).2
          = [Effect.constructKnowledgeAgent (normalizeModel m),
             Effect.showInfo "Success"
               (toString s.selected_files.length
                 ++ " documents successfully uploaded and indexed.")] :=
  ⟨rfl, rfl, rfl⟩

/-- Claim C3: the RAG dispatcher invokes an agent exactly when no upload is
in flight and a knowledge agent exists; in flight it only shows the busy
notice, and with no agent it only shows the upload-first error. -/
theorem rag_dispatch_guards (s : AppState) (q : String)
    (o : Except String PyValue) :
    invokesAnyAgent (_handle_rag_query s q o).2
        = (!s.upload_in_progress && (s.agent).isSome)
      ∧ (s.upload_in_progress = true →
          _handle_rag_query s q o
            = (s, [Effect.showInfo "Info"
                "System is busy performing the RAG operation. Please wait."]))
      ∧ (s.upload_in_progress = false → s.agent = none →
          _handle_rag_query s q o
            = (s, [Effect.showError "Error"
                "No documents have been uploaded yet. Please upload first."])) := by
  refine ⟨?_, ?_, ?_⟩
  · cases hu : s.upload_in_progress with
    | true => simp [_handle_rag_query, hu, invokesAnyAgent]
    | false =>
      cases ha : s.agent with
      | none => simp [_handle_rag_query, hu, ha, invokesAnyAgent]
      | some ag => cases o <;> simp [_handle_rag_query, hu, ha, invokesAnyAgent]
  · intro hu
    simp [_handle_rag_query, hu]
  · intro hu ha
    simp [_handle_rag_query, hu, ha]

/-- Witness for C3: the busy and upload-first rejections at concrete states. -/
theorem rag_dispatch_guards_witness :
    (_handle_rag_query { baseState with upload_in_progress := true } "q" (.ok (.str "a"))
        = ({ baseState with upload_in_progress := true },
           [Effect.showInfo "Info"
             "System is busy performing the RAG operation. Please wait."]))
      ∧ (_handle_rag_query baseState "q" (.ok (.str "a"))
        = (baseState,
           [Effect.showError "Error"
             "No documents have been uploaded yet. Please upload first."])) :=
  ⟨(rag_dispatch_guards { baseState with upload_in_progress := true } "q" (.ok (.str "a"))).2.1 rfl,
   (rag_dispatch_guards baseState "q" (.ok (.str "a"))).2.2 rfl rfl⟩

/-- Claim C7 counterexample: an empty string result is displayed verbatim,
not replaced by the placeholder, so "empty" results do not get the fixed
placeholder text. -/
theorem empty_string_result_not_placeholder :
    (_handle_rag_query { baseState with agent := some sampleAgent } "q" (.ok (.str ""))).2
        = [Effect.invokeKnowledgeAgent sampleAgent "q", Effect.display ""]
      ∧ ("" : String) ≠ "No response from the model." :=
  ⟨rfl, by decide⟩

/-- Claim C7 (amended): any non-string result is coerced via `str(...)`,
and the placeholder appears exactly when the result is absent (`None`); a
string result — even the empty string — is displayed verbatim. -/
theorem render_coercion_amended (s : AppState) (q : String) (ag : KnowledgeAgent)
    (v : PyValue) (h1 : s.upload_in_progress = false) (h2 : s.agent = some ag) :
    (_handle_rag_query s q (.ok v)).2
        = [Effect.invokeKnowledgeAgent ag q, Effect.display (renderResult v)]
      ∧ (∀ ca q2 s2, (runChatStart s2 ca q2 (.ok v)).2
            = [Effect.invokeChatAgent ca q2, Effect.display (renderResult v)])
      ∧ renderResult PyValue.pynone = "No response from the model."
      ∧ (∀ x, renderResult (PyValue.str x) = x)
      ∧ (∀ r, renderResult (PyValue.other r) = r) := by
  refine ⟨?_, fun ca q2 s2 => rfl, rfl, fun x => rfl, fun r => rfl⟩
  simp [_handle_rag_query, h1, h2]

/-- Witness for the amended C7: an absent result at a concrete ready state
displays the placeholder. -/
theorem render_coercion_amended_witness :
    (_handle_rag_query { baseState with agent := some sampleAgent } "q"
        (.ok PyValue.pynone)).2
      = [Effect.invokeKnowledgeAgent sampleAgent "q",
         Effect.display "No response from the model."] :=
  (render_coercion_amended { baseState with agent := some sampleAgent } "q"
    sampleAgent PyValue.pynone rfl rfl).1

/-- Claim C10: the RAG dispatcher never consults the selected model — with
an agent present and no upload in flight it invokes exactly the stored
agent, its effects are unchanged under any rewrite of `model_var` and
`ollama_models` — while the membership check does reject chat queries and
upload requests whose selected model is undiscovered. -/
theorem rag_dispatch_ignores_selected_model (s : AppState) (q : String)
    (o : Except String PyValue) (ag : KnowledgeAgent)
    (h1 : s.upload_in_progress = false) (h2 : s.agent = some ag) :
    (_handle_rag_query s q o).2.head? = some (Effect.invokeKnowledgeAgent ag q)
      ∧ (∀ m ms, (_handle_rag_query { s with model_var := m, ollama_models := ms } q o).2
            = (_handle_rag_query s q o).2)
      ∧ (∀ q2 co so, s.ollama_models.contains s.model_var = false →
            _handle_chat_query s q2 co so
              = (s, [Effect.showError "Error"
                  ("The model \x27" ++ s.model_var ++ "\x27 is not available in Ollama.")]))
      ∧ (s.selected_directory ≠ "" → s.selected_files ≠ [] →
            s.ollama_models.contains s.model_var = false →
            upload_document s
              = (s, [Effect.showError "Error"
                  ("The model \x27" ++ s.model_var ++ "\x27 is not available in Ollama.")])) := by
  refine ⟨?_, ?_, ?_, ?_⟩
  · cases o <;> simp [_handle_rag_query, h1, h2]
  · intro m ms
    cases o <;> simp [_handle_rag_query, h1, h2]
  · intro q2 co so hc
    unfold _handle_chat_query
    rw [if_pos hc]
  · intro hd hf hc
    unfold upload_document
    rw [if_neg (by simp [h1]), if_neg hd, if_neg hf, if_pos hc]

/-- Witness for C10 at a concrete state whose selected model is not in the
discovered list but whose knowledge agent is present. -/
theorem rag_dispatch_ignores_selected_model_witness :
    ((_handle_rag_query
        { baseState with agent := some sampleAgent, model_var := "gone:latest" }
        "q" (.ok (.str "a"))).2.head?
      = some (Effect.invokeKnowledgeAgent sampleAgent "q"))
    ∧ (upload_document
        { baseState with agent := some sampleAgent, model_var := "gone:latest" }
        = ({ baseState with agent := some sampleAgent, model_var := "gone:latest" },
           [Effect.showError "Error"
             ("The model \x27" ++ "gone:latest" ++ "\x27 is not available in Ollama.")])) := by
  have h := rag_dispatch_ignores_selected_model
    { baseState with agent := some sampleAgent, model_var := "gone:latest" }
    "q" (.ok (.str "a")) sampleAgent rfl rfl
  exact ⟨h.1, h.2.2.2 (by decide) (by decide) (by decide)⟩

/-- Claim C4: a zero-exit listing whose stripped output is a `NAME` header
line followed by N non-blank rows yields exactly the N first tokens of the
rows, in row order; every failing invocation yields the fixed fallback list
(the function is total, so no exception reaches the caller). -/
theorem model_discovery_parses_rows (out header : String) (rows : List String)
    (h1 : linesOf out = header :: rows)
    (h2 : leadsWith ("NAME".data) header.data = true)
    (h3 : ∀ r ∈ rows, isBlankL r.data = false) :
    get_ollama_models (.ok out) = rows.map (fun r => String.mk (firstTokenL r.data))
      ∧ (get_ollama_models (.ok out)).length = rows.length
      ∧ ∀ e, get_ollama_models (.error e) = ["mistral:latest"] := by
  have hd : dataRows out = rows := by
    unfold dataRows
    rw [h1]
    exact if_pos h2
  have hmain : get_ollama_models (.ok out)
      = rows.map (fun r => String.mk (firstTokenL r.data)) := by
    show (dataRows out).filterMap parseModelLine = _
    rw [hd]
    exact filterMap_eq_map_of_forall_some _ _ rows
      (fun r hr => parseModelLine_of_not_blank r (h3 r hr))
  exact ⟨hmain, by rw [hmain, List.length_map], fun e => rfl⟩

/-- Witness for C4 on a concrete two-row listing. -/
theorem model_discovery_parses_rows_witness :
    linesOf "NAME ID\nm1:latest a\nm2:latest b"
        = ["NAME ID", "m1:latest a", "m2:latest b"]
      ∧ get_ollama_models (.ok "NAME ID\nm1:latest a\nm2:latest b")
        = ["m1:latest", "m2:latest"] := by
  refine ⟨by decide, ?_⟩
  have h := model_discovery_parses_rows "NAME ID\nm1:latest a\nm2:latest b"
    "NAME ID" ["m1:latest a", "m2:latest b"] (by decide) (by decide) (by decide)
  rw [h.1]
  decide

/-- Claim C5 counterexample: a zero-exit listing whose output is empty, or
contains only the header line, makes `get_ollama_models` return the empty
list — not a list with at least one element. -/
theorem model_discovery_can_be_empty :
    get_ollama_models (.ok "") = []
      ∧ get_ollama_models
          (.ok "NAME               ID              SIZE       MODIFIED") = [] := by
  decide

/-- Claim C5 (amended): the result is non-empty for every failing
invocation and for every successful listing with at least one non-blank
data row; a successful listing that is empty or header-only yields the
empty list. -/
theorem model_discovery_nonempty_amended :
    (∀ e, get_ollama_models (.error e) ≠ [])
      ∧ (∀ out r, r ∈ dataRows out → isBlankL r.data = false →
           get_ollama_models (.ok out) ≠ [])
      ∧ get_ollama_models (.ok "") = [] := by
  refine ⟨fun e => by simp [get_ollama_models], ?_, by decide⟩
  intro out r hr hb hnil
  have hnil' : (dataRows out).filterMap parseModelLine = [] := hnil
  have hnone : parseModelLine r = none := (List.filterMap_eq_nil_iff.mp hnil') r hr
  rw [parseModelLine_of_not_blank r hb] at hnone
  exact Option.noConfusion hnone

/-- Witness for the amended C5 at a concrete listing with one data row. -/
theorem model_discovery_nonempty_amended_witness :
    ("m1:latest a" ∈ dataRows "NAME ID\nm1:latest a"
        ∧ isBlankL ("m1:latest a").data = false)
      ∧ get_ollama_models (.ok "NAME ID\nm1:latest a") ≠ [] :=
  ⟨by decide,
   model_discovery_nonempty_amended.2.1 "NAME ID\nm1:latest a" "m1:latest a"
     (by decide) (by decide)⟩

/-- Claim C8: with a valid selected model, a chat agent is constructed
exactly when none exists or its recorded `_model` differs from the selected
model; after a successful build the recorded model equals the selected one,
and a second query with the same selected model constructs no agent. -/
theorem chat_agent_cache (s : AppState) (q : String)
    (co : Except String Unit) (so : Except String PyValue)
    (h : s.ollama_models.contains s.model_var = true) :
    constructsChat (_handle_chat_query s q co so).2 = chatCacheStale s
      ∧ (∃ ca, ((_handle_chat_query s q (.ok ()) so).1).chat_agent = some ca
            ∧ ca.modelAttr = some s.model_var)
      ∧ (∀ q2 co2 so2,
          constructsChat
            (_handle_chat_query (_handle_chat_query s q (.ok ()) so).1 q2 co2 so2).2
            = false) := by
  have hc2 : ¬ (s.ollama_models.contains s.model_var = false) := by
    intro hfalse
    rw [h] at hfalse
    exact Bool.noConfusion hfalse
  cases hst : chatCacheStale s with
  | false =>
    cases hca : s.chat_agent with
    | none =>
      rw [chatCacheStale, hca] at hst
      cases hst
    | some ca =>
      have hbeq : (ca.modelAttr == some s.model_var) = true := by
        have hst' : (!(ca.modelAttr == some s.model_var)) = false := by
          rw [chatCacheStale, hca] at hst
          exact hst
        cases hb : ca.modelAttr == some s.model_var with
        | false => rw [hb] at hst'; cases hst'
        | true => rfl
      have hattr : ca.modelAttr = some s.model_var := eq_of_beq hbeq
      have hrun : ∀ (q' : String) (co' : Except String Unit) (so' : Except String PyValue),
          _handle_chat_query s q' co' so' = runChatStart s ca q' so' := by
        intro q' co' so'
        unfold _handle_chat_query
        rw [if_neg hc2, if_neg (by simp [hst]), hca]
      have hpass : (runChatStart s ca q so).1 = s := by cases so <;> rfl
      refine ⟨?_, ?_, ?_⟩
      · rw [hrun q co so]
        cases so <;> rfl
      · rw [hrun q (.ok ()) so, hpass]
        exact ⟨ca, hca, hattr⟩
      · intro q2 co2 so2
        rw [hrun q (.ok ()) so, hpass, hrun q2 co2 so2]
        cases so2 <;> rfl
  | true =>
    have hok : ∀ (q' : String) (so' : Except String PyValue),
        _handle_chat_query s q' (.ok ()) so'
          = ((runChatStart
                { s with chat_agent := some { llm := normalizeModel s.model_var,
                                              modelAttr := some s.model_var } }
                { llm := normalizeModel s.model_var, modelAttr := some s.model_var }
                q' so').1,
             Effect.constructChatAgent (normalizeModel s.model_var)
               :: (runChatStart
                    { s with chat_agent := some { llm := normalizeModel s.model_var,
                                                  modelAttr := some s.model_var } }
                    { llm := normalizeModel s.model_var, modelAttr := some s.model_var }
                    q' so').2) := by
      intro q' so'
      unfold _handle_chat_query
      rw [if_neg hc2, if_pos hst]
      cases so' <;> rfl
    have hpass : ∀ (q' : String) (so' : Except String PyValue),
        (runChatStart
            { s with chat_agent := some { llm := normalizeModel s.model_var,
                                          modelAttr := some s.model_var } }
            { llm := normalizeModel s.model_var, modelAttr := some s.model_var }
            q' so').1
          = { s with chat_agent := some { llm := normalizeModel s.model_var,
                                          modelAttr := some s.model_var } } := by
      intro q' so'
      cases so' <;> rfl
    refine ⟨?_, ?_, ?_⟩
    · cases co with
      | ok u =>
        cases u
        rw [hok q so]
        rfl
      | error e =>
        unfold _handle_chat_query
        rw [if_neg hc2, if_pos hst]
        rfl
    · rw [hok q so, hpass q so]
      exact ⟨{ llm := normalizeModel s.model_var, modelAttr := some s.model_var }, rfl, rfl⟩
    · intro q2 co2 so2
      rw [hok q so, hpass q so]
      have hst2 : chatCacheStale
          { s with chat_agent := some { llm := normalizeModel s.model_var,
                                        modelAttr := some s.model_var } } = false := by
        simp [chatCacheStale]
      unfold _handle_chat_query
      rw [if_neg hc2, if_neg (by simp [hst2])]
      cases so2 <;> rfl

/-- Witness for C8: on the fresh base state the first chat query builds the
agent, the second with the same model does not. -/
theorem chat_agent_cache_witness :
    constructsChat (_handle_chat_query baseState "q" (.ok ()) (.ok (.str "hi"))).2 = true
      ∧ constructsChat
          (_handle_chat_query (_handle_chat_query baseState "q" (.ok ()) (.ok (.str "hi"))).1
            "q" (.ok ()) (.ok (.str "hi"))).2 = false := by
  have h := chat_agent_cache baseState "q" (.ok ()) (.ok (.str "hi")) (by decide)
  exact ⟨by rw [h.1]; decide, h.2.2 "q" (.ok ()) (.ok (.str "hi"))⟩

/-- Filtering path-tagged pairs and projecting equals filtering the bare
names and joining. -/
theorem filter_over_pairs (p : String → Bool) (g : String → String)
    (files : List String) :
    ((files.map (fun f => (g f, f))).filter (fun pr => p pr.2)).map Prod.fst
      = (files.filter p).map g := by
  induction files with
  | nil => rfl
  | cons f fs ih =>
    simp only [List.map_cons, List.filter_cons]
    cases hp : p f <;> simp [hp, ih]

mutual

/-- The scanner equals "all files, filtered by extension, projected to
paths" on every tree. -/
theorem scanTree_eq_filter (root : String) (t : FSTree) :
    scanTree root t
      = ((allFilesTree root t).filter (fun pr => hasSupportedExt pr.2)).map Prod.fst := by
  match t with
  | .node files subdirs =>
    rw [scanTree, allFilesTree, List.filter_append, List.map_append,
      scanSubdirs_eq_filter root subdirs, filter_over_pairs]

/-- Forest version of `scanTree_eq_filter`. -/
theorem scanSubdirs_eq_filter (root : String) (l : List (String × FSTree)) :
    scanSubdirs root l
      = ((allFilesSubdirs root l).filter (fun pr => hasSupportedExt pr.2)).map Prod.fst := by
  match l with
  | [] => rfl
  | (name, t) :: rest =>
    rw [scanSubdirs, allFilesSubdirs, List.filter_append, List.map_append,
      scanTree_eq_filter (joinPath root name) t, scanSubdirs_eq_filter root rest]

end

/-- Claim C9: the scanner returns exactly the files under the directory
(recursively) whose lowercased name ends in .pdf, .md or .txt: in general
the extension-filtered projection of all files, on the five-file example
exactly the four matching files, and the empty sequence for an empty
directory. -/
theorem scanner_filters_extensions :
    (∀ root t, scan_supported_files root t
        = ((allFilesTree root t).filter (fun pr => hasSupportedExt pr.2)).map Prod.fst)
      ∧ scan_supported_files "dir"
          (FSTree.node ["a.pdf", "b.PDF", "c.md", "d.txt", "e.exe"] [])
          = ["dir/a.pdf", "dir/b.PDF", "dir/c.md", "dir/d.txt"]
      ∧ scan_supported_files "dir" (FSTree.node [] []) = [] :=
  ⟨fun root t => scanTree_eq_filter root t, by decide, by decide⟩

end LocalRAG
